import Mathlib

/-!
Shallow embedding of the gear-museum repository (src/src/App.jsx).

The repository renders procedurally generated gears.  The algorithmic core is:

* `GearGeom` (App.jsx lines 9-58): a per-frame rotation update
  (`useFrame`, lines 13-19) and a procedural spur-gear outline built with
  `THREE.Shape` `lineTo`/`closePath` plus one circular hole (lines 22-48).
* `RackGeom` (lines 61-73): a sinusoidal oscillation of `position.x`.
* `SystemSpur` (lines 97-102): two gears with speeds `+1` and `-1`.

Numbers are modelled as real numbers (the JavaScript source computes with
floating-point doubles; the spec reads all numeric statements up to
floating-point tolerance, so the idealized real-valued semantics is the
object of verification).  `THREE.Shape` paths are modelled by the list of
points they visit: a fresh path's current point is the origin `(0, 0)`,
`lineTo` appends a point, and `closePath` appends the path's first point
when it differs from the current point (the semantics of `THREE.Path`,
which the source calls into).
-/

namespace GearMuseum

/-- A 2D point, as used by `THREE.Shape` boundary construction. -/
abbrev Point : Type := ℝ × ℝ

/-- A 3D vector with the `x`/`y`/`z` components of a three.js `Vector3` /
`Euler`. -/
structure Vec3 where
  x : ℝ
  y : ℝ
  z : ℝ

/-- The part of a three.js mesh transform that the animators touch:
`mesh.position` and `mesh.rotation`. -/
structure Transform where
  position : Vec3
  rotation : Vec3

/-- The `useFrame` body of `GearGeom` (App.jsx lines 13-19): three
sequential `if` statements, each adding `speed * delta` to the rotation
component selected by the `axis` prop when `axis` matches. -/
def gearFrameUpdate (axis : String) (speed delta : ℝ) (t : Transform) :
    Transform :=
  let t1 := if axis = "y" then
    { t with rotation := { t.rotation with y := t.rotation.y + speed * delta } }
    else t
  let t2 := if axis = "x" then
    { t1 with rotation := { t1.rotation with x := t1.rotation.x + speed * delta } }
    else t1
  let t3 := if axis = "z" then
    { t2 with rotation := { t2.rotation with z := t2.rotation.z + speed * delta } }
    else t2
  t3

/-- Running the `GearGeom` frame update over a sequence of frame deltas,
one call of the `useFrame` callback per delta. -/
def runFrames (axis : String) (speed : ℝ) (deltas : List ℝ) (t : Transform) :
    Transform :=
  deltas.foldl (fun tr d => gearFrameUpdate axis speed d tr) t

/-- The literal amplitude `1.5` multiplying the sine in `RackGeom`
(App.jsx line 65). -/
noncomputable def rackAmplitude : ℝ := 1.5

/-- The `useFrame` body of `RackGeom` (App.jsx lines 63-66):
`position.x = Math.sin(state.clock.elapsedTime * speed) * 1.5`. -/
noncomputable def rackFrameUpdate (speed elapsedTime : ℝ) (t : Transform) :
    Transform :=
  { t with position :=
      { t.position with x := Real.sin (elapsedTime * speed) * rackAmplitude } }

/-- The rotation component named by the `axis` prop (`0` when `axis` is
none of `"x"`, `"y"`, `"z"`, in which case `gearFrameUpdate` never touches
the transform). -/
def axisComponent (axis : String) (t : Transform) : ℝ :=
  if axis = "x" then t.rotation.x
  else if axis = "y" then t.rotation.y
  else if axis = "z" then t.rotation.z
  else 0

/-- Tooth count of both gears in `SystemSpur` (App.jsx lines 99-100). -/
def systemSpurTeeth : ℕ := 12

/-- Radius of both gears in `SystemSpur` (App.jsx lines 99-100). -/
noncomputable def systemSpurRadius : ℝ := 1

/-- Speed of gear A in `SystemSpur` (App.jsx line 99). -/
noncomputable def systemSpurSpeedA : ℝ := 1

/-- Speed of gear B in `SystemSpur` (App.jsx line 100). -/
noncomputable def systemSpurSpeedB : ℝ := -1

/-- The default `axis` prop of `GearGeom` (App.jsx line 9): `"y"`. -/
def gearDefaultAxis : String := "y"

/-- `outerRadius = radius * 1.1` (App.jsx line 25). -/
noncomputable def outerRadius (radius : ℝ) : ℝ := radius * 1.1

/-- `innerRadius = radius * 0.9` (App.jsx line 26). -/
noncomputable def innerRadius (radius : ℝ) : ℝ := radius * 0.9

/-- `holeRadius = radius * 0.2` (App.jsx line 27). -/
noncomputable def holeRadius (radius : ℝ) : ℝ := radius * 0.2

/-- `angle = (i / n) * Math.PI * 2` (App.jsx line 31); also gives
`angleNext` at `i + 1` (line 32). -/
noncomputable def sectorAngle (n i : ℕ) : ℝ := ((i : ℝ) / (n : ℝ)) * Real.pi * 2

/-- `angleHalf = (angle + angleNext) / 2` (App.jsx line 33). -/
noncomputable def sectorAngleHalf (n i : ℕ) : ℝ :=
  (sectorAngle n i + sectorAngle n (i + 1)) / 2

/-- The four `lineTo` targets of loop iteration `i` of the tooth loop
(App.jsx lines 36-39), in source order. -/
noncomputable def sectorPoints (n : ℕ) (r : ℝ) (i : ℕ) : List Point :=
  [(Real.cos (sectorAngle n i) * innerRadius r,
    Real.sin (sectorAngle n i) * innerRadius r),
   (Real.cos (sectorAngle n i) * outerRadius r,
    Real.sin (sectorAngle n i) * outerRadius r),
   (Real.cos (sectorAngleHalf n i) * outerRadius r,
    Real.sin (sectorAngleHalf n i) * outerRadius r),
   (Real.cos (sectorAngleHalf n i) * innerRadius r,
    Real.sin (sectorAngleHalf n i) * innerRadius r)]

/-- All `lineTo` targets emitted by the tooth loop (App.jsx lines 30-40):
iterations `i = 0, ..., n-1`, four points each. -/
noncomputable def gearBoundaryPoints (n : ℕ) (r : ℝ) : List Point :=
  (List.range n).flatMap (sectorPoints n r)

/-- A `THREE.Path` under construction, modelled by the list of points it
visits in order.  The head of `vertices` is the point the path starts
from; the last entry is the `currentPoint`. -/
structure Path2 where
  vertices : List Point

/-- A fresh `THREE.Shape` (App.jsx line 23): its `currentPoint` is
`(0, 0)`, and no curve has been added yet. -/
def Path2.fresh : Path2 := ⟨[((0 : ℝ), (0 : ℝ))]⟩

/-- `THREE.Path.lineTo(x, y)`: adds a line curve from `currentPoint` to
`(x, y)` and makes `(x, y)` the new `currentPoint`. -/
def Path2.lineTo (p : Path2) (q : Point) : Path2 := ⟨p.vertices ++ [q]⟩

/-- The path's `currentPoint`: the last visited point. -/
def Path2.currentPoint (p : Path2) : Point :=
  (p.vertices.getLast?).getD ((0 : ℝ), (0 : ℝ))

/-- The start point of the path's first curve: the first visited point
(for a fresh shape, the origin). -/
def Path2.startPoint (p : Path2) : Point :=
  (p.vertices.head?).getD ((0 : ℝ), (0 : ℝ))

/-- `THREE.Path.closePath()` (App.jsx line 41): when the start point of
the first curve differs from `currentPoint`, add a line curve from
`currentPoint` back to that start point. -/
noncomputable def Path2.closePath (p : Path2) : Path2 :=
  if p.startPoint = p.currentPoint then p else p.lineTo p.startPoint

/-- The hole contour pushed onto `s.holes` (App.jsx lines 44-46):
`absarc(cx, cy, r, a0, a1, clockwise)`. -/
structure Arc where
  cx : ℝ
  cy : ℝ
  r : ℝ
  a0 : ℝ
  a1 : ℝ
  clockwise : Bool

/-- The value of the `shape` memo (App.jsx lines 22-48): a closed
boundary path plus a list of hole contours. -/
structure GearShape where
  outline : Path2
  holes : List Arc

/-- The boundary path before `closePath`: the tooth loop (App.jsx lines
30-40) issuing four `lineTo` calls per iteration on the fresh shape. -/
noncomputable def gearOutlineOpen (n : ℕ) (r : ℝ) : Path2 :=
  (List.range n).foldl
    (fun s i => ((sectorPoints n r i).foldl Path2.lineTo s))
    Path2.fresh

/-- The complete `shape` memo of `GearGeom` (App.jsx lines 22-48): draw
the teeth, `closePath()`, then push one full-circle hole of radius
`holeRadius` centered at the origin (`absarc(0, 0, holeRadius, 0,
Math.PI * 2, false)`). -/
noncomputable def gearShape (n : ℕ) (r : ℝ) : GearShape :=
  { outline := (gearOutlineOpen n r).closePath
    holes := [⟨0, 0, holeRadius r, 0, Real.pi * 2, false⟩] }

/-- Euclidean distance of a point from the origin. -/
noncomputable def norm2 (p : Point) : ℝ := Real.sqrt (p.1 ^ 2 + p.2 ^ 2)

/-- The props of `GearGeom` (App.jsx line 9), with their default values
available to callers that omit them. -/
structure GearGeomProps where
  teeth : ℕ
  radius : ℝ
  width : ℝ
  color : String
  speed : ℝ
  position : Vec3
  rotation : Vec3
  axis : String

/-- The 2D shape a `GearGeom` instance builds: the `useMemo` body reads
only the `teeth` and `radius` props (App.jsx lines 22-48). -/
noncomputable def GearGeom.shape (p : GearGeomProps) : GearShape :=
  gearShape p.teeth p.radius

/-- The `extrudeSettings` object (App.jsx line 50). -/
structure ExtrudeSettings where
  depth : ℝ
  bevelEnabled : Bool
  bevelSegments : ℕ
  steps : ℕ
  bevelSize : ℝ
  bevelThickness : ℝ

/-- `extrudeSettings = { depth: width, bevelEnabled: true, bevelSegments:
2, steps: 1, bevelSize: 0.05, bevelThickness: 0.05 }` (App.jsx line 50). -/
noncomputable def GearGeom.extrudeSettings (p : GearGeomProps) :
    ExtrudeSettings :=
  ⟨p.width, true, 2, 1, 0.05, 0.05⟩

lemma length_flatMap_const {α : Type} (f : ℕ → List α) (k : ℕ)
    (hf : ∀ i, (f i).length = k) (m : ℕ) :
    ((List.range m).flatMap f).length = k * m := by
  induction m with
  | zero => simp
  | succ m ih =>
    rw [List.range_succ, List.flatMap_append, List.length_append, ih]
    simp [hf, Nat.mul_succ]

lemma flatMap_const_drop_take {α : Type} (f : ℕ → List α) (k : ℕ)
    (hf : ∀ i, (f i).length = k) :
    ∀ m i, i < m →
      (((List.range m).flatMap f).drop (k * i)).take k = f i := by
  intro m
  induction m with
  | zero => intro i hi; exact absurd hi (Nat.not_lt_zero i)
  | succ m ih =>
    intro i hi
    rw [List.range_succ, List.flatMap_append]
    rcases Nat.lt_or_ge i m with h | h
    · have hlen : ((List.range m).flatMap f).length = k * m :=
        length_flatMap_const f k hf m
      have hki : k * i + k ≤ k * m := by
        have := Nat.mul_le_mul_left k (Nat.succ_le_of_lt h)
        rw [Nat.mul_succ] at this
        omega
      rw [List.drop_append_of_le_length (by omega)]
      rw [List.take_append_of_le_length (by rw [List.length_drop]; omega)]
      exact ih i h
    · have him : i = m := Nat.le_antisymm (Nat.lt_succ_iff.mp hi) h
      subst him
      rw [show k * i = ((List.range i).flatMap f).length from
        (length_flatMap_const f k hf i).symm]
      rw [List.drop_left]
      simp [List.take_of_length_le (le_of_eq (hf i))]

lemma sectorPoints_length (n : ℕ) (r : ℝ) (i : ℕ) :
    (sectorPoints n r i).length = 4 := rfl

lemma gearBoundaryPoints_length (n : ℕ) (r : ℝ) :
    (gearBoundaryPoints n r).length = 4 * n :=
  length_flatMap_const (sectorPoints n r) 4 (sectorPoints_length n r) n

lemma norm2_cos_sin_mul (a R : ℝ) (hR : 0 ≤ R) :
    norm2 (Real.cos a * R, Real.sin a * R) = R := by
  have h : (Real.cos a * R) ^ 2 + (Real.sin a * R) ^ 2 = R ^ 2 := by
    linear_combination R ^ 2 * Real.sin_sq_add_cos_sq a
  simp only [norm2]
  rw [h, Real.sqrt_sq hR]

lemma norm2_origin : norm2 ((0 : ℝ), (0 : ℝ)) = 0 := by
  simp [norm2]

lemma innerRadius_pos {r : ℝ} (hr : 0 < r) : 0 < innerRadius r := by
  unfold innerRadius; nlinarith

lemma outerRadius_pos {r : ℝ} (hr : 0 < r) : 0 < outerRadius r := by
  unfold outerRadius; nlinarith

lemma holeRadius_pos {r : ℝ} (hr : 0 < r) : 0 < holeRadius r := by
  unfold holeRadius; nlinarith

lemma norm2_of_mem_sectorPoints {n : ℕ} {r : ℝ} (hr : 0 ≤ r) {i : ℕ}
    {p : Point} (hp : p ∈ sectorPoints n r i) :
    norm2 p = innerRadius r ∨ norm2 p = outerRadius r := by
  have hin : (0 : ℝ) ≤ innerRadius r := by unfold innerRadius; nlinarith
  have hout : (0 : ℝ) ≤ outerRadius r := by unfold outerRadius; nlinarith
  simp only [sectorPoints, List.mem_cons, List.not_mem_nil, or_false] at hp
  rcases hp with h | h | h | h <;> subst h
  · exact Or.inl (norm2_cos_sin_mul _ _ hin)
  · exact Or.inr (norm2_cos_sin_mul _ _ hout)
  · exact Or.inr (norm2_cos_sin_mul _ _ hout)
  · exact Or.inl (norm2_cos_sin_mul _ _ hin)

lemma norm2_of_mem_gearBoundaryPoints {n : ℕ} {r : ℝ} (hr : 0 ≤ r)
    {p : Point} (hp : p ∈ gearBoundaryPoints n r) :
    norm2 p = innerRadius r ∨ norm2 p = outerRadius r := by
  rw [gearBoundaryPoints, List.mem_flatMap] at hp
  obtain ⟨i, -, hpi⟩ := hp
  exact norm2_of_mem_sectorPoints hr hpi

lemma foldl_lineTo_vertices (l : List Point) (p : Path2) :
    (l.foldl Path2.lineTo p).vertices = p.vertices ++ l := by
  induction l generalizing p with
  | nil => simp
  | cons q l ih => simp [ih, Path2.lineTo]

lemma gearOutlineOpen_vertices (n : ℕ) (r : ℝ) :
    (gearOutlineOpen n r).vertices =
      ((0 : ℝ), (0 : ℝ)) :: gearBoundaryPoints n r := by
  have aux : ∀ (l : List ℕ) (p : Path2),
      (l.foldl (fun s i => (sectorPoints n r i).foldl Path2.lineTo s)
        p).vertices = p.vertices ++ l.flatMap (sectorPoints n r) := by
    intro l
    induction l with
    | nil => intro p; simp
    | cons i l ih =>
      intro p
      simp [ih, foldl_lineTo_vertices, List.append_assoc]
  rw [gearOutlineOpen, aux, gearBoundaryPoints]
  rfl

lemma gearShape_outline_vertices {n : ℕ} {r : ℝ} (hn : 1 ≤ n) (hr : 0 < r) :
    (gearShape n r).outline.vertices =
      ((0 : ℝ), (0 : ℝ)) :: (gearBoundaryPoints n r ++ [((0 : ℝ), (0 : ℝ))]) := by
  have hne : gearBoundaryPoints n r ≠ [] := by
    intro h
    have := gearBoundaryPoints_length n r
    rw [h] at this
    simp at this
    omega
  obtain ⟨q, hq⟩ := List.getLast?_isSome.mpr hne |> Option.isSome_iff_exists.mp
  have hqmem : q ∈ gearBoundaryPoints n r := by
    have := List.getLast?_eq_getLast (gearBoundaryPoints n r) hne
    rw [this] at hq
    exact Option.some_injective _ hq ▸ List.getLast_mem hne
  have hstart : (gearOutlineOpen n r).startPoint = ((0 : ℝ), (0 : ℝ)) := by
    rw [Path2.startPoint, gearOutlineOpen_vertices]
    rfl
  have hcur : (gearOutlineOpen n r).currentPoint = q := by
    rw [Path2.currentPoint, gearOutlineOpen_vertices]
    rw [show ((0 : ℝ), (0 : ℝ)) :: gearBoundaryPoints n r =
      [((0 : ℝ), (0 : ℝ))] ++ gearBoundaryPoints n r from rfl]
    rw [List.getLast?_append, hq]
    rfl
  have hq0 : q ≠ ((0 : ℝ), (0 : ℝ)) := by
    intro h
    rcases norm2_of_mem_gearBoundaryPoints (le_of_lt hr) hqmem with hn2 | hn2 <;>
      rw [h, norm2_origin] at hn2
    · exact absurd hn2.symm (ne_of_gt (innerRadius_pos hr))
    · exact absurd hn2.symm (ne_of_gt (outerRadius_pos hr))
  show ((gearOutlineOpen n r).closePath).vertices = _
  rw [Path2.closePath, hstart, hcur, if_neg (fun h => hq0 h.symm)]
  rw [Path2.lineTo, gearOutlineOpen_vertices]
  rfl

lemma gearFrameUpdate_y (s d : ℝ) (t : Transform) :
    gearFrameUpdate "y" s d t =
      { t with rotation := { t.rotation with y := t.rotation.y + s * d } } :=
  rfl

lemma gearFrameUpdate_x (s d : ℝ) (t : Transform) :
    gearFrameUpdate "x" s d t =
      { t with rotation := { t.rotation with x := t.rotation.x + s * d } } :=
  rfl

lemma gearFrameUpdate_z (s d : ℝ) (t : Transform) :
    gearFrameUpdate "z" s d t =
      { t with rotation := { t.rotation with z := t.rotation.z + s * d } } :=
  rfl

lemma gearFrameUpdate_other (axis : String) (s d : ℝ) (t : Transform)
    (hx : axis ≠ "x") (hy : axis ≠ "y") (hz : axis ≠ "z") :
    gearFrameUpdate axis s d t = t := by
  unfold gearFrameUpdate
  simp [hx, hy, hz]

lemma Transform.ext_fields {a b : Transform} (hp : a.position = b.position)
    (hx : a.rotation.x = b.rotation.x) (hy : a.rotation.y = b.rotation.y)
    (hz : a.rotation.z = b.rotation.z) : a = b := by
  cases a with
  | mk ap ar =>
    cases b with
    | mk bp br =>
      cases ar
      cases br
      cases hp
      simp_all

lemma gearFrameUpdate_position (axis : String) (s d : ℝ) (t : Transform) :
    (gearFrameUpdate axis s d t).position = t.position := by
  by_cases hy : axis = "y"
  · subst hy; rw [gearFrameUpdate_y]
  · by_cases hx : axis = "x"
    · subst hx; rw [gearFrameUpdate_x]
    · by_cases hz : axis = "z"
      · subst hz; rw [gearFrameUpdate_z]
      · rw [gearFrameUpdate_other axis s d t hx hy hz]

lemma gearFrameUpdate_rotx (axis : String) (s d : ℝ) (t : Transform)
    (h : axis ≠ "x") : (gearFrameUpdate axis s d t).rotation.x =
      t.rotation.x := by
  by_cases hy : axis = "y"
  · subst hy; rw [gearFrameUpdate_y]
  · by_cases hz : axis = "z"
    · subst hz; rw [gearFrameUpdate_z]
    · rw [gearFrameUpdate_other axis s d t h hy hz]

lemma gearFrameUpdate_roty (axis : String) (s d : ℝ) (t : Transform)
    (h : axis ≠ "y") : (gearFrameUpdate axis s d t).rotation.y =
      t.rotation.y := by
  by_cases hx : axis = "x"
  · subst hx; rw [gearFrameUpdate_x]
  · by_cases hz : axis = "z"
    · subst hz; rw [gearFrameUpdate_z]
    · rw [gearFrameUpdate_other axis s d t hx h hz]

lemma gearFrameUpdate_rotz (axis : String) (s d : ℝ) (t : Transform)
    (h : axis ≠ "z") : (gearFrameUpdate axis s d t).rotation.z =
      t.rotation.z := by
  by_cases hx : axis = "x"
  · subst hx; rw [gearFrameUpdate_x]
  · by_cases hy : axis = "y"
    · subst hy; rw [gearFrameUpdate_y]
    · rw [gearFrameUpdate_other axis s d t hx hy h]

lemma axisComponent_x (t : Transform) : axisComponent "x" t = t.rotation.x :=
  rfl

lemma axisComponent_y (t : Transform) : axisComponent "y" t = t.rotation.y :=
  rfl

lemma axisComponent_z (t : Transform) : axisComponent "z" t = t.rotation.z :=
  rfl

lemma runFrames_cons (axis : String) (s d : ℝ) (ds : List ℝ)
    (t : Transform) : runFrames axis s (d :: ds) t =
      runFrames axis s ds (gearFrameUpdate axis s d t) := rfl

lemma runFrames_x_sum (s : ℝ) (ds : List ℝ) (t0 : Transform) :
    (runFrames "x" s ds t0).rotation.x = t0.rotation.x + s * ds.sum := by
  induction ds generalizing t0 with
  | nil => simp [runFrames]
  | cons d ds ih =>
    rw [runFrames_cons, ih, gearFrameUpdate_x]
    simp [List.sum_cons]
    ring

lemma runFrames_y_sum (s : ℝ) (ds : List ℝ) (t0 : Transform) :
    (runFrames "y" s ds t0).rotation.y = t0.rotation.y + s * ds.sum := by
  induction ds generalizing t0 with
  | nil => simp [runFrames]
  | cons d ds ih =>
    rw [runFrames_cons, ih, gearFrameUpdate_y]
    simp [List.sum_cons]
    ring

lemma runFrames_z_sum (s : ℝ) (ds : List ℝ) (t0 : Transform) :
    (runFrames "z" s ds t0).rotation.z = t0.rotation.z + s * ds.sum := by
  induction ds generalizing t0 with
  | nil => simp [runFrames]
  | cons d ds ih =>
    rw [runFrames_cons, ih, gearFrameUpdate_z]
    simp [List.sum_cons]
    ring

lemma gearFrameUpdate_chunk (axis : String) (s d1 d2 : ℝ) (t : Transform) :
    gearFrameUpdate axis s (d1 + d2) t =
      gearFrameUpdate axis s d2 (gearFrameUpdate axis s d1 t) := by
  by_cases hy : axis = "y"
  · subst hy
    apply Transform.ext_fields <;> simp [gearFrameUpdate_y]
    ring
  · by_cases hx : axis = "x"
    · subst hx
      apply Transform.ext_fields <;> simp [gearFrameUpdate_x]
      ring
    · by_cases hz : axis = "z"
      · subst hz
        apply Transform.ext_fields <;> simp [gearFrameUpdate_z]
        ring
      · rw [gearFrameUpdate_other axis s (d1 + d2) t hx hy hz,
          gearFrameUpdate_other axis s d1 t hx hy hz,
          gearFrameUpdate_other axis s d2 t hx hy hz]

/-- A concrete transform used to exercise the animator theorems. -/
noncomputable def sampleTransform : Transform := ⟨⟨1, 2, 3⟩, ⟨4, 5, 6⟩⟩

lemma sectorAngle_zero (n : ℕ) : sectorAngle n 0 = 0 := by
  simp [sectorAngle]

lemma head?_of_take_one {α : Type} {l : List α} {a : α}
    (h : l.take 1 = [a]) : l.head? = some a := by
  cases l with
  | nil => simp at h
  | cons b l =>
    simp only [List.take_succ_cons, List.take_zero] at h
    injection h with h1 h2
    simp [h1]

lemma gearBoundaryPoints_take_four {n : ℕ} (r : ℝ) (hn : 1 ≤ n) :
    (gearBoundaryPoints n r).take 4 = sectorPoints n r 0 := by
  have h := flatMap_const_drop_take (sectorPoints n r) 4
    (sectorPoints_length n r) n 0 hn
  rw [Nat.mul_zero, List.drop_zero] at h
  exact h

lemma gearBoundaryPoints_take_one {n : ℕ} (r : ℝ) (hn : 1 ≤ n) :
    (gearBoundaryPoints n r).take 1 = [(innerRadius r, 0)] := by
  have h1 : (gearBoundaryPoints n r).take 1 =
      ((gearBoundaryPoints n r).take 4).take 1 := by
    rw [List.take_take]
    norm_num
  rw [h1, gearBoundaryPoints_take_four r hn]
  simp [sectorPoints, sectorAngle_zero]

lemma gearBoundaryPoints_head {n : ℕ} (r : ℝ) (hn : 1 ≤ n) :
    (gearBoundaryPoints n r).head? = some (innerRadius r, 0) :=
  head?_of_take_one (gearBoundaryPoints_take_one r hn)

lemma gearShape_start_cur {n : ℕ} {r : ℝ} (hn : 1 ≤ n) (hr : 0 < r) :
    (gearShape n r).outline.startPoint = ((0 : ℝ), (0 : ℝ)) ∧
    (gearShape n r).outline.currentPoint = ((0 : ℝ), (0 : ℝ)) := by
  have hv := gearShape_outline_vertices hn hr
  constructor
  · rw [Path2.startPoint, hv]
    rfl
  · rw [Path2.currentPoint, hv,
      show ((0 : ℝ), (0 : ℝ)) :: (gearBoundaryPoints n r ++
          [((0 : ℝ), (0 : ℝ))]) =
        (((0 : ℝ), (0 : ℝ)) :: gearBoundaryPoints n r) ++
          [((0 : ℝ), (0 : ℝ))] from (List.cons_append _ _ _).symm,
      List.getLast?_concat]
    rfl

/-- Claim C1: for every toothCount at least 3 and baseRadius above 0, the
gear-profile generator produces a closed boundary outline with exactly
`4 * toothCount` boundary vertices (the `lineTo` targets of the tooth
loop), plus exactly one hole contour, a full circle of radius
`holeRadius` centered at the origin; and every boundary vertex lies at
distance `innerRadius` or `outerRadius` from the origin. -/
theorem gear_profile_outline_spec (n : ℕ) (r : ℝ) (hn : 3 ≤ n)
    (hr : 0 < r) :
    (gearBoundaryPoints n r).length = 4 * n ∧
    (gearShape n r).outline.startPoint =
      (gearShape n r).outline.currentPoint ∧
    (gearShape n r).holes = [⟨0, 0, holeRadius r, 0, Real.pi * 2, false⟩] ∧
    ∀ p ∈ gearBoundaryPoints n r,
      norm2 p = innerRadius r ∨ norm2 p = outerRadius r := by
  refine ⟨gearBoundaryPoints_length n r, ?_, rfl,
    fun p hp => norm2_of_mem_gearBoundaryPoints hr.le hp⟩
  obtain ⟨h1, h2⟩ := gearShape_start_cur (n := n) (r := r) (by omega) hr
  rw [h1, h2]

/-- Witness for claim C1 at the end-to-end scenario of the spec:
toothCount 12, baseRadius 1 (48 boundary vertices, one hole of radius
`holeRadius 1`). -/
theorem gear_profile_outline_spec_witness :
    (3 ≤ 12 ∧ (0 : ℝ) < 1) ∧
    ((gearBoundaryPoints 12 1).length = 4 * 12 ∧
     (gearShape 12 1).outline.startPoint =
       (gearShape 12 1).outline.currentPoint ∧
     (gearShape 12 1).holes = [⟨0, 0, holeRadius 1, 0, Real.pi * 2, false⟩] ∧
     ∀ p ∈ gearBoundaryPoints 12 1,
       norm2 p = innerRadius 1 ∨ norm2 p = outerRadius 1) :=
  ⟨⟨by decide, by norm_num⟩,
   gear_profile_outline_spec 12 1 (by decide) (by norm_num)⟩

/-- Claim C2: for every baseRadius above 0 the generator derives
`outerRadius = 1.1 * baseRadius`, `innerRadius = 0.9 * baseRadius` and
`holeRadius = 0.2 * baseRadius`, and these satisfy the strict ordering
`outerRadius > innerRadius > holeRadius > 0`. -/
theorem gear_radii_derivation_and_ordering (r : ℝ) (hr : 0 < r) :
    outerRadius r = 1.1 * r ∧ innerRadius r = 0.9 * r ∧
    holeRadius r = 0.2 * r ∧ outerRadius r > innerRadius r ∧
    innerRadius r > holeRadius r ∧ holeRadius r > 0 := by
  unfold outerRadius innerRadius holeRadius
  refine ⟨by ring, by ring, by ring, by nlinarith, by nlinarith,
    by nlinarith⟩

/-- Witness for claim C2 at baseRadius 1. -/
theorem gear_radii_derivation_and_ordering_witness :
    (0 : ℝ) < 1 ∧
    (outerRadius 1 = 1.1 * 1 ∧ innerRadius 1 = 0.9 * 1 ∧
     holeRadius 1 = 0.2 * 1 ∧ outerRadius 1 > innerRadius 1 ∧
     innerRadius 1 > holeRadius 1 ∧ holeRadius 1 > 0) :=
  ⟨by norm_num, gear_radii_derivation_and_ordering 1 (by norm_num)⟩

/-- Claim C3: for every angular speed and every sequence of frame deltas,
iterating the continuous-rotation update accumulates
`r0 + speed * (sum of the deltas)` on the chosen axis, and the update is
chunking-invariant: updating with `d1 + d2` equals updating with `d1`
then with `d2`. -/
theorem continuous_rotation_additivity (axis : String)
    (hax : axis = "x" ∨ axis = "y" ∨ axis = "z") (s : ℝ) (ds : List ℝ)
    (t0 : Transform) :
    axisComponent axis (runFrames axis s ds t0) =
      axisComponent axis t0 + s * ds.sum ∧
    ∀ d1 d2 t, gearFrameUpdate axis s (d1 + d2) t =
      gearFrameUpdate axis s d2 (gearFrameUpdate axis s d1 t) := by
  refine ⟨?_, fun d1 d2 t => gearFrameUpdate_chunk axis s d1 d2 t⟩
  rcases hax with h | h | h <;> subst h
  · rw [axisComponent_x, axisComponent_x]
    exact runFrames_x_sum s ds t0
  · rw [axisComponent_y, axisComponent_y]
    exact runFrames_y_sum s ds t0
  · rw [axisComponent_z, axisComponent_z]
    exact runFrames_z_sum s ds t0

/-- Witness for claim C3: axis `"y"`, speed 2, deltas `[1, 1]`. -/
theorem continuous_rotation_additivity_witness :
    ("y" = "x" ∨ "y" = "y" ∨ "y" = "z") ∧
    axisComponent "y" (runFrames "y" 2 [1, 1] sampleTransform) =
      axisComponent "y" sampleTransform + 2 * ([1, 1] : List ℝ).sum :=
  ⟨Or.inr (Or.inl rfl),
   (continuous_rotation_additivity "y" (Or.inr (Or.inl rfl)) 2 [1, 1]
     sampleTransform).1⟩

/-- Claim C4: the sinusoidal-oscillation animator of the rack sets
`position.x` to `amplitude * sin(elapsedTime * speed)` at every total
elapsed time, and in particular to 0 at elapsed time 0. -/
theorem rack_sinusoidal_oscillation (speed elapsed : ℝ) (t : Transform) :
    (rackFrameUpdate speed elapsed t).position.x =
      rackAmplitude * Real.sin (elapsed * speed) ∧
    (rackFrameUpdate speed 0 t).position.x = 0 := by
  constructor
  · show Real.sin (elapsed * speed) * rackAmplitude = _
    ring
  · show Real.sin (0 * speed) * rackAmplitude = 0
    rw [zero_mul, Real.sin_zero, zero_mul]

/-- Claim C5: for every toothCount at least 3, baseRadius above 0 and
sector index `i` below the tooth count, the generator emits, at offset
`4 * i` of the boundary stream, exactly these four points in this order:
the inner-radius point at `angle`, the outer-radius point at `angle`,
the outer-radius point at the sector midpoint angle, and the
inner-radius point at the midpoint angle. -/
theorem gear_sector_emission_order (n : ℕ) (r : ℝ) (i : ℕ) (_hn : 3 ≤ n)
    (_hr : 0 < r) (hi : i < n) :
    ((gearBoundaryPoints n r).drop (4 * i)).take 4 =
      [(Real.cos (sectorAngle n i) * innerRadius r,
        Real.sin (sectorAngle n i) * innerRadius r),
       (Real.cos (sectorAngle n i) * outerRadius r,
        Real.sin (sectorAngle n i) * outerRadius r),
       (Real.cos (sectorAngleHalf n i) * outerRadius r,
        Real.sin (sectorAngleHalf n i) * outerRadius r),
       (Real.cos (sectorAngleHalf n i) * innerRadius r,
        Real.sin (sectorAngleHalf n i) * innerRadius r)] :=
  flatMap_const_drop_take (sectorPoints n r) 4 (sectorPoints_length n r)
    n i hi

/-- Witness for claim C5 at toothCount 12, baseRadius 1, sector 5. -/
theorem gear_sector_emission_order_witness :
    (3 ≤ 12 ∧ (0 : ℝ) < 1 ∧ 5 < 12) ∧
    ((gearBoundaryPoints 12 1).drop (4 * 5)).take 4 =
      [(Real.cos (sectorAngle 12 5) * innerRadius 1,
        Real.sin (sectorAngle 12 5) * innerRadius 1),
       (Real.cos (sectorAngle 12 5) * outerRadius 1,
        Real.sin (sectorAngle 12 5) * outerRadius 1),
       (Real.cos (sectorAngleHalf 12 5) * outerRadius 1,
        Real.sin (sectorAngleHalf 12 5) * outerRadius 1),
       (Real.cos (sectorAngleHalf 12 5) * innerRadius 1,
        Real.sin (sectorAngleHalf 12 5) * innerRadius 1)] :=
  ⟨⟨by decide, by norm_num, by decide⟩,
   gear_sector_emission_order 12 1 5 (by decide) (by norm_num) (by decide)⟩

/-- Counterexample to claim C6 as stated: at toothCount 12, baseRadius 1,
the final point of the closed outline (the target of `closePath`) is the
origin `(0, 0)`, which differs from the sector-0 inner-radius point
`(cos(angle 0), sin(angle 0)) * innerRadius = (innerRadius 1, 0)`. -/
theorem gear_outline_closure_counterexample :
    (gearShape 12 1).outline.currentPoint = ((0 : ℝ), (0 : ℝ)) ∧
    (gearShape 12 1).outline.currentPoint ≠
      (Real.cos (sectorAngle 12 0) * innerRadius 1,
       Real.sin (sectorAngle 12 0) * innerRadius 1) := by
  obtain ⟨-, hcur⟩ := gearShape_start_cur (n := 12) (r := 1)
    (by norm_num) (by norm_num)
  refine ⟨hcur, ?_⟩
  rw [hcur, sectorAngle_zero, Real.cos_zero, Real.sin_zero]
  intro h
  rw [Prod.ext_iff] at h
  have h1 := h.1
  norm_num [innerRadius] at h1

/-- Claim C6 (amended): when the path is closed, its first and last
points coincide with each other at the path's actual start point, the
origin `(0, 0)` (the current point of a fresh `THREE.Shape`), not at the
sector-0 inner-radius point; the first `lineTo`-emitted boundary point
does equal the inner-radius point at angle 0. -/
theorem gear_outline_closure_amended (n : ℕ) (r : ℝ) (hn : 3 ≤ n)
    (hr : 0 < r) :
    (gearShape n r).outline.startPoint = ((0 : ℝ), (0 : ℝ)) ∧
    (gearShape n r).outline.currentPoint =
      (gearShape n r).outline.startPoint ∧
    (gearBoundaryPoints n r).head? = some (innerRadius r, 0) := by
  obtain ⟨hstart, hcur⟩ := gearShape_start_cur (n := n) (r := r)
    (by omega) hr
  exact ⟨hstart, by rw [hstart, hcur],
    gearBoundaryPoints_head r (by omega)⟩

/-- Witness for the amended claim C6 at toothCount 12, baseRadius 1. -/
theorem gear_outline_closure_amended_witness :
    (3 ≤ 12 ∧ (0 : ℝ) < 1) ∧
    ((gearShape 12 1).outline.startPoint = ((0 : ℝ), (0 : ℝ)) ∧
     (gearShape 12 1).outline.currentPoint =
       (gearShape 12 1).outline.startPoint ∧
     (gearBoundaryPoints 12 1).head? = some (innerRadius 1, 0)) :=
  ⟨⟨by decide, by norm_num⟩,
   gear_outline_closure_amended 12 1 (by decide) (by norm_num)⟩

/-- Claim C7: in a two-gear system with the `SystemSpur` speeds `+1` and
`-1` on the default `"y"` axis, after 2 seconds delivered as two uniform
1-second frame deltas, gear A's accumulated y rotation has increased by
2 radians and gear B's has decreased by 2 radians. -/
theorem system_spur_two_seconds (tA tB : Transform) :
    (runFrames gearDefaultAxis systemSpurSpeedA [1, 1] tA).rotation.y =
      tA.rotation.y + 2 ∧
    (runFrames gearDefaultAxis systemSpurSpeedB [1, 1] tB).rotation.y =
      tB.rotation.y - 2 := by
  have hsum : ([1, 1] : List ℝ).sum = 2 := by
    norm_num [List.sum_cons, List.sum_nil]
  have hA := runFrames_y_sum systemSpurSpeedA [1, 1] tA
  have hB := runFrames_y_sum systemSpurSpeedB [1, 1] tB
  rw [hsum] at hA hB
  rw [show gearDefaultAxis = "y" from rfl, hA, hB]
  constructor
  · simp only [systemSpurSpeedA]
    ring
  · simp only [systemSpurSpeedB]
    ring

/-- Claim C8: the continuous-rotation update modifies only the rotation
component of the chosen axis: the position is always unchanged, the two
other rotation components are unchanged, and when the axis string is
none of `"x"`, `"y"`, `"z"` the whole transform is unchanged. -/
theorem gear_update_touches_only_axis (axis : String) (s d : ℝ)
    (t : Transform) :
    (gearFrameUpdate axis s d t).position = t.position ∧
    (axis = "x" → (gearFrameUpdate axis s d t).rotation.y = t.rotation.y ∧
      (gearFrameUpdate axis s d t).rotation.z = t.rotation.z) ∧
    (axis = "y" → (gearFrameUpdate axis s d t).rotation.x = t.rotation.x ∧
      (gearFrameUpdate axis s d t).rotation.z = t.rotation.z) ∧
    (axis = "z" → (gearFrameUpdate axis s d t).rotation.x = t.rotation.x ∧
      (gearFrameUpdate axis s d t).rotation.y = t.rotation.y) ∧
    (axis ≠ "x" → axis ≠ "y" → axis ≠ "z" →
      gearFrameUpdate axis s d t = t) := by
  refine ⟨gearFrameUpdate_position axis s d t, ?_, ?_, ?_,
    fun hx hy hz => gearFrameUpdate_other axis s d t hx hy hz⟩
  · rintro rfl
    exact ⟨gearFrameUpdate_roty "x" s d t (by decide),
      gearFrameUpdate_rotz "x" s d t (by decide)⟩
  · rintro rfl
    exact ⟨gearFrameUpdate_rotx "y" s d t (by decide),
      gearFrameUpdate_rotz "y" s d t (by decide)⟩
  · rintro rfl
    exact ⟨gearFrameUpdate_rotx "z" s d t (by decide),
      gearFrameUpdate_roty "z" s d t (by decide)⟩

/-- Witness for claim C8: the `"y"` update keeps the position of a
concrete transform, and an unknown axis string `"w"` leaves the concrete
transform entirely unchanged. -/
theorem gear_update_touches_only_axis_witness :
    (gearFrameUpdate "y" 2 3 sampleTransform).position =
      sampleTransform.position ∧
    gearFrameUpdate "w" 2 3 sampleTransform = sampleTransform :=
  ⟨(gear_update_touches_only_axis "y" 2 3 sampleTransform).1,
   (gear_update_touches_only_axis "w" 2 3 sampleTransform).2.2.2.2
     (by decide) (by decide) (by decide)⟩

/-- Claim C9: the generated gear shape is a function of the `teeth` and
`radius` props alone; two `GearGeom` instances agreeing on those produce
identical outlines whatever their color, speed, position, rotation, axis
or width, and `width` feeds only the extrusion depth. -/
theorem gear_shape_deterministic (p q : GearGeomProps)
    (ht : p.teeth = q.teeth) (hr : p.radius = q.radius) :
    GearGeom.shape p = GearGeom.shape q ∧
    (GearGeom.extrudeSettings p).depth = p.width := by
  refine ⟨?_, rfl⟩
  unfold GearGeom.shape
  rw [ht, hr]

/-- Props of the first gear of `SystemSpur` (App.jsx line 99) with the
defaults of `GearGeom` filled in. -/
noncomputable def gearPropsA : GearGeomProps :=
  ⟨12, 1, 0.5, "#ffaa00", 1, ⟨-1.05, 0, 0⟩, ⟨0, 0, 0⟩, "y"⟩

/-- Props of the gear of `SystemWorm` (App.jsx line 126) with the
defaults of `GearGeom` filled in. -/
noncomputable def gearPropsB : GearGeomProps :=
  ⟨12, 1, 0.2, "gold", 0.1, ⟨0, -0.5, 0⟩, ⟨0, 0, 0⟩, "y"⟩

/-- Witness for claim C9: two concrete prop records that agree on teeth
and radius but differ in width, color, speed and position build the same
shape. -/
theorem gear_shape_deterministic_witness :
    gearPropsA.teeth = gearPropsB.teeth ∧
    gearPropsA.radius = gearPropsB.radius ∧
    (GearGeom.shape gearPropsA = GearGeom.shape gearPropsB ∧
     (GearGeom.extrudeSettings gearPropsA).depth = gearPropsA.width) :=
  ⟨rfl, rfl, gear_shape_deterministic gearPropsA gearPropsB rfl rfl⟩

/-- Claim C10: the boundary path begins at the origin: the first emitted
command is a `lineTo` on a fresh shape whose current point is `(0, 0)`,
so the path's first two visited points are the origin and the first
inner-radius vertex, the outline contains a point at distance 0 from the
origin, and the closed path visits `4 * toothCount + 2` points in all
(the `4 * toothCount` sector vertices plus the origin at both ends). -/
theorem gear_path_starts_at_origin (n : ℕ) (r : ℝ) (hn : 3 ≤ n)
    (hr : 0 < r) :
    (gearShape n r).outline.vertices.take 2 =
      [((0 : ℝ), (0 : ℝ)), (innerRadius r, 0)] ∧
    ((0 : ℝ), (0 : ℝ)) ∈ (gearShape n r).outline.vertices ∧
    norm2 ((0 : ℝ), (0 : ℝ)) = 0 ∧
    (gearShape n r).outline.vertices.length = 4 * n + 2 := by
  have hv := gearShape_outline_vertices (n := n) (r := r) (by omega) hr
  have hlen := gearBoundaryPoints_length n r
  refine ⟨?_, ?_, norm2_origin, ?_⟩
  · rw [hv]
    show ((0 : ℝ), (0 : ℝ)) ::
        ((gearBoundaryPoints n r ++ [((0 : ℝ), (0 : ℝ))]).take 1) = _
    rw [List.take_append_of_le_length (by rw [hlen]; omega),
      gearBoundaryPoints_take_one r (by omega)]
  · rw [hv]
    exact List.mem_cons_self _ _
  · rw [hv, List.length_cons, List.length_append, hlen,
      List.length_singleton]

/-- Witness for claim C10 at toothCount 12, baseRadius 1. -/
theorem gear_path_starts_at_origin_witness :
    (3 ≤ 12 ∧ (0 : ℝ) < 1) ∧
    ((gearShape 12 1).outline.vertices.take 2 =
       [((0 : ℝ), (0 : ℝ)), (innerRadius 1, 0)] ∧
     ((0 : ℝ), (0 : ℝ)) ∈ (gearShape 12 1).outline.vertices ∧
     norm2 ((0 : ℝ), (0 : ℝ)) = 0 ∧
     (gearShape 12 1).outline.vertices.length = 4 * 12 + 2) :=
  ⟨⟨by decide, by norm_num⟩,
   gear_path_starts_at_origin 12 1 (by decide) (by norm_num)⟩

end GearMuseum
